import Mathlib

/-
Verification of the stage-orchestration engine of a BIDS fMRI processing
pipeline.  The Lean definitions below are a shallow embedding of the two
source files `app/pipelines.py` and `app/run.py`: the `Status` write-through
record and its transitions, the abstract `Stage` lifecycle
(setup / teardown / expected-output verification), the distortion-correction
inference and setter operations of `ParameterSettings`, the intended-fieldmap
resolution loops, the environment-variable formatting of `get_params`, and
the stage-list construction and `start:stop` slicing of `run.interface`.
File-system and subprocess effects are made explicit: the set of files on
disk is a parameter, external exit codes are inputs, and Python exceptions
are modelled with `Except`.
-/

set_option autoImplicit false

namespace InfantPipeline

/-! ### Status (pipelines.py, class Status)

The persisted record is `{num_runs, node_status, comment}`; `node_status`
stores one of the integers of the `Status.states` dictionary. -/

def states_unchecked : Nat := 999

def states_not_started : Nat := 4

def states_failed : Nat := 3

def states_incomplete : Nat := 2

def states_succeeded : Nat := 1

structure StatusRec where
  num_runs : Nat
  node_status : Nat
  comment : String
  deriving DecidableEq, Repr

/-- Defaults written on first access (`Status.__init__`). -/
def statusDefaults : StatusRec :=
  { num_runs := 0, node_status := states_not_started, comment := "" }

def increment_run (s : StatusRec) : StatusRec :=
  { s with num_runs := s.num_runs + 1 }

def update_start_run (s : StatusRec) : StatusRec :=
  { increment_run s with node_status := states_incomplete }

def update_success (s : StatusRec) : StatusRec :=
  { s with node_status := states_succeeded, comment := "" }

def update_failure (s : StatusRec) (comment : String) : StatusRec :=
  { s with node_status := states_failed, comment := comment }

def update_unchecked (s : StatusRec) (comment : String) : StatusRec :=
  { s with node_status := states_unchecked, comment := comment }

/-- Embeds `Status.succeeded`: the record passes iff `node_status` is the
succeeded or the unchecked state. -/
def succeededQ (s : StatusRec) : Bool :=
  s.node_status == states_succeeded || s.node_status == states_unchecked

/-! ### Stage runtime flags and lifecycle (pipelines.py, class Stage) -/

structure StageFlags where
  call_active : Bool
  check_expected_outputs_active : Bool
  remove_expected_outputs_active : Bool
  ignore_expected_outputs : Bool
  deriving DecidableEq, Repr

def defaultFlags : StageFlags :=
  { call_active := true, check_expected_outputs_active := true,
    remove_expected_outputs_active := true, ignore_expected_outputs := false }

/-- Result of executing the stage's command(s): a single exit code for a
plain stage, a list of exit codes for a fan-out stage. -/
inductive ExecResult where
  | code (n : Int)
  | codes (l : List Int)
  deriving DecidableEq, Repr

/-- Embeds the list normalization at the top of `Stage.teardown`:
`if isinstance(result, list) and all(v == 0 for v in result): result = 0`. -/
def normalizeResult (r : ExecResult) : ExecResult :=
  match r with
  | ExecResult.codes l => if l.all (fun v => v == 0) then ExecResult.code 0 else ExecResult.codes l
  | ExecResult.code n => ExecResult.code n

/-- Embeds `Stage.check_expected_outputs`.  `outputs` is the fully resolved
expected-output path list, `onDisk` is existence on the file system.
Returns `true` when checking is inactive, when every output exists, or when
missing outputs are being ignored. -/
def check_expected_outputs (flags : StageFlags) (outputs : List String)
    (onDisk : String → Bool) : Bool :=
  if !flags.check_expected_outputs_active then true
  else if outputs.all onDisk then true
  else flags.ignore_expected_outputs

/-- The guard at the top of `Stage.remove_expected_outputs` is
`if not self.remove_expected_outputs: return` — it tests the truthiness of
the bound method itself, which is always a truthy object; it never reads the
`remove_expected_outputs_active` flag.  This constant records that
truthiness. -/
def remove_expected_outputs_method_truthy : Bool := true

/-- Embeds `Stage.remove_expected_outputs`: deletes every expected-output
file currently on disk.  `disk` is the list of files present; the result is
the list of files present afterwards.  The `flags` argument carries
`remove_expected_outputs_active`, which the source never consults (see
`remove_expected_outputs_method_truthy`). -/
def remove_expected_outputs (flags : StageFlags) (outputs : List String)
    (disk : List String) : List String :=
  if !remove_expected_outputs_method_truthy then disk
  else disk.filter (fun f => !(outputs.contains f))

/-- Embeds `Stage.setup`: `Status.update_start_run` followed by
`remove_expected_outputs`.  Returns the new status record and the new file
system contents. -/
def setup (st : StatusRec) (flags : StageFlags) (outputs : List String)
    (disk : List String) : StatusRec × List String :=
  (update_start_run st, remove_expected_outputs flags outputs disk)

/-- Embeds `Stage.teardown`: normalize the exit result, record success or
failure, override with failure when expected outputs are missing, and
finally raise iff `node_status != Status.states['succeeded']`.  Returns the
final status record and whether the fatal exception was raised. -/
def teardown (st : StatusRec) (result : ExecResult) (flags : StageFlags)
    (outputs : List String) (onDisk : String → Bool) : StatusRec × Bool :=
  let r := normalizeResult result
  let st1 := if r = ExecResult.code 0 then update_success st
             else update_failure st "stage terminated with exit code"
  let st2 := if check_expected_outputs flags outputs onDisk then st1
             else update_failure st1
               "stage terminated, some required files were not created."
  (st2, decide (st2.node_status ≠ states_succeeded))

/-! ### Stage-list slicing (run.py, interface, lines 524-557) -/

/-- First index of a character in a list, mirroring Python `str.find`
(which returns -1, i.e. `none` here, when absent). -/
def firstCharIdx (c : Char) : List Char → Option Nat
  | [] => none
  | a :: rest => if a = c then some 0 else (firstCharIdx c rest).map (fun i => i + 1)

/-- Embeds the `idx_colon = stages.find(":")` split: with a colon present the
start stage is everything before it and the stop stage everything after it;
with no colon the whole string is the start stage and there is no stop
stage (`end_stage = None`). -/
def splitStagesArg (s : String) : String × Option String :=
  match firstCharIdx ':' s.toList with
  | some i => (String.mk (s.toList.take i), some (String.mk (s.toList.drop (i + 1))))
  | none => (s, none)

/-- Embeds the stage-range selection of `run.interface`: `order` is the list
of stage class names, `stages` the optional `--stages` argument.  A falsy
argument (absent or empty) leaves the list unchanged.  A named start stage
must be a known name (`assert start_stage in names`); a stop stage that is
not `None` — including the empty string produced by a trailing colon — must
also be a known name, else the assertion fails (modelled as
`Except.error`). -/
def sliceStages (order : List String) (stages : Option String) :
    Except String (List String) :=
  match stages with
  | none => Except.ok order
  | some s =>
    if s = "" then Except.ok order else
    let sp := splitStagesArg s
    let startRes : Except String Nat :=
      if sp.1 = "" then Except.ok 0
      else if sp.1 ∈ order then Except.ok (order.indexOf sp.1)
      else Except.error ("\"" ++ sp.1 ++ "\" is unknown, check class name and case for given stage")
    match startRes with
    | Except.error e => Except.error e
    | Except.ok start_idx =>
      let endRes : Except String Nat :=
        match sp.2 with
        | none => Except.ok order.length
        | some es =>
          if es ∈ order then Except.ok (order.indexOf es + 1)
          else Except.error ("\"" ++ es ++ "\" is unknown, check class name and case for given stage")
      match endRes with
      | Except.error e => Except.error e
      | Except.ok end_idx => Except.ok ((order.drop start_idx).take (end_idx - start_idx))

/-! ### Theorems for the teardown / setup claims -/

/-- C1: after the output-verification step, `Stage.teardown` raises the
fatal run-terminating exception if and only if the final status record is
not in a passing state in the sense of `Status.succeeded` (outcome
succeeded or unchecked).  The two conditions agree on every execution
because teardown always leaves the record in the succeeded or the failed
state before the final test. -/
theorem c1_teardown_raises_iff_not_passing (st : StatusRec) (result : ExecResult)
    (flags : StageFlags) (outputs : List String) (onDisk : String → Bool) :
    (teardown st result flags outputs onDisk).2
      = !succeededQ (teardown st result flags outputs onDisk).1 := by
  unfold teardown
  dsimp only
  split
  · split <;>
      simp [update_success, update_failure, succeededQ, states_succeeded,
        states_failed, states_unchecked]
  · split <;>
      simp [update_success, update_failure, succeededQ, states_succeeded,
        states_failed, states_unchecked]

/-- C4 (failing input): a completed stage with an empty expected-outputs
list and exit code 0 is marked SUCCEEDED by `Stage.teardown` — the
verification trivially passes on an empty list, `update_success` runs, and
`update_unchecked` is never invoked — so the final state is the succeeded
state and not the unchecked state the specification requires. -/
theorem c4_no_outputs_marks_succeeded_not_unchecked :
    (teardown (update_start_run statusDefaults) (ExecResult.code 0) defaultFlags
        [] (fun _ => false)).1.node_status = states_succeeded
      ∧ states_succeeded ≠ states_unchecked
      ∧ (teardown (update_start_run statusDefaults) (ExecResult.code 0) defaultFlags
          [] (fun _ => false)).2 = false := by
  refine ⟨rfl, by decide, rfl⟩

/-- C8 (failing input): with `remove_expected_outputs_active` set to
`false` (the state produced by `deactivate_remove_expected_outputs`) and a
pre-existing expected-output file on disk, `Stage.setup` still deletes the
file: the guard in `remove_expected_outputs` tests the bound method rather
than the flag, so deactivation has no effect. -/
theorem c8_deactivated_setup_still_removes_outputs :
    (setup statusDefaults
        { defaultFlags with remove_expected_outputs_active := false }
        ["/out/sub-1/files/T1w/T1w_acpc_dc_restore.nii.gz"]
        ["/out/sub-1/files/T1w/T1w_acpc_dc_restore.nii.gz"]).2.contains
      "/out/sub-1/files/T1w/T1w_acpc_dc_restore.nii.gz" = false := by
  decide

/-- C2 (failing input): stage-range slicing over names `[A,B,C,D]`.  The
selectors `B:C`, `:C` and `B` behave as specified, and an unknown name is a
hard error; but the selector `B:` — a colon with an empty stop — does not
run from `B` to the end: the empty stop string is not `None`, so the code
asserts `"" in names` and fails with the unknown-stage configuration
error, contradicting the program's own `--stage` help text. -/
theorem c2_slicing_empty_stop_is_error :
    sliceStages ["A", "B", "C", "D"] (some "B:C") = Except.ok ["B", "C"]
      ∧ sliceStages ["A", "B", "C", "D"] (some ":C") = Except.ok ["A", "B", "C"]
      ∧ sliceStages ["A", "B", "C", "D"] (some "B") = Except.ok ["B", "C", "D"]
      ∧ sliceStages ["A", "B", "C", "D"] (some "E") =
          Except.error "\"E\" is unknown, check class name and case for given stage"
      ∧ sliceStages ["A", "B", "C", "D"] (some "B:") =
          Except.error "\"\" is unknown, check class name and case for given stage" := by
  refine ⟨rfl, rfl, rfl, rfl, rfl⟩

/-! ### Distortion-correction inference
(pipelines.py, ParameterSettings.__init__, lines 149-199)

Inputs read by that code: `bids_data['types']`, the key set of
`bids_data['fmap']`, the EchoTime metadata of the two gradient-fieldmap
magnitude echoes, the EffectiveEchoSpacing list of the positive spin-echo
metadata, and the PhaseEncodingDirection list of the functional metadata.
Echo times and spacings are modelled as rationals (the source only formats
them to strings after the arithmetic).  The `ijk_to_xyz` helper lives in a
module outside the embedded sources and is carried as an opaque function
parameter. -/

def fmap_types : List String :=
  ["magnitude", "magnitude1", "magnitude2", "phasediff", "phase1", "phase2", "fieldmap"]

structure BidsData where
  types : List String
  fmapEntries : List (String × String)
  mag1EchoTime : ℚ
  mag2EchoTime : ℚ
  posEffEchoSpacing : List ℚ
  funcPEDirs : List String
  deriving DecidableEq, Repr

inductive DcError where
  | indexError
  | notImplemented
  | noMagnitude
  | noPhase
  deriving DecidableEq, Repr

structure DcFields where
  dcmethod : Option String
  echospacing : Option ℚ
  seunwarpdir : Option String
  fmapmag : Option String
  fmapphase : Option String
  fmapgeneralelectric : Option String
  echodiff : Option ℚ
  gdcoeffs : Option String
  deriving DecidableEq, Repr

/-- The all-unset sentinel assignment of the final `else` branch. -/
def dcUnset : DcFields :=
  { dcmethod := none, echospacing := none, seunwarpdir := none, fmapmag := none,
    fmapphase := none, fmapgeneralelectric := none, echodiff := none, gdcoeffs := none }

/-- Embeds the `'epi' in types` branch: method TOPUP, echo spacing from the
first positive spin-echo metadata entry, phase-encoding direction from the
first functional metadata entry (an empty list is a Python IndexError), all
gradient-fieldmap fields set to None. -/
def inferDcTopup (ijkToXyz : String → String) (d : BidsData) : Except DcError DcFields :=
  match d.posEffEchoSpacing with
  | [] => Except.error DcError.indexError
  | es :: _ =>
    match d.funcPEDirs with
    | [] => Except.error DcError.indexError
    | pe :: _ =>
      Except.ok { dcmethod := some "TOPUP", echospacing := some es,
                  seunwarpdir := some (ijkToXyz pe), fmapmag := none, fmapphase := none,
                  fmapgeneralelectric := none, echodiff := none, gdcoeffs := none }

/-- Embeds the magnitude part of the FIELDMAP branch: a magnitude1/magnitude2
pair yields the magnitude file and the echo-time difference in milliseconds;
a single combined `magnitude` image is NotImplementedError; otherwise no
magnitude image can be identified. -/
def inferDcFieldmapMag (d : BidsData) : Except DcError (Option String × ℚ) :=
  let keys := d.fmapEntries.map Prod.fst
  if keys.contains "magnitude1" && keys.contains "magnitude2" then
    Except.ok (d.fmapEntries.lookup "magnitude1", (d.mag2EchoTime - d.mag1EchoTime) * 1000)
  else if keys.contains "magnitude" then Except.error DcError.notImplemented
  else Except.error DcError.noMagnitude

/-- Embeds the phase part of the FIELDMAP branch: `phasediff` yields the
phase file; a split phase1/phase2 pair is NotImplementedError; otherwise no
phase image can be identified. -/
def inferDcFieldmapPhase (d : BidsData) : Except DcError (Option String) :=
  let keys := d.fmapEntries.map Prod.fst
  if keys.contains "phasediff" then Except.ok (d.fmapEntries.lookup "phasediff")
  else if keys.contains "phase1" && keys.contains "phase2" then
    Except.error DcError.notImplemented
  else Except.error DcError.noPhase

/-- The whole FIELDMAP branch: magnitude handling, then phase handling, spin
echo fields set to None. -/
def inferDcFieldmap (d : BidsData) : Except DcError DcFields :=
  match inferDcFieldmapMag d with
  | Except.error e => Except.error e
  | Except.ok mag =>
    match inferDcFieldmapPhase d with
    | Except.error e => Except.error e
    | Except.ok ph =>
      Except.ok { dcmethod := some "FIELDMAP", echospacing := none, seunwarpdir := none,
                  fmapmag := mag.1, fmapphase := ph, fmapgeneralelectric := none,
                  echodiff := some mag.2, gdcoeffs := none }

/-- Embeds the three-way branch of lines 154-199: spin-echo pair present →
TOPUP; any gradient-fieldmap category present → FIELDMAP; otherwise every
distortion-correction field is the unset sentinel. -/
def inferDc (ijkToXyz : String → String) (d : BidsData) : Except DcError DcFields :=
  if d.types.contains "epi" then inferDcTopup ijkToXyz d
  else if fmap_types.any d.types.contains then inferDcFieldmap d
  else Except.ok dcUnset

/-- The method as a pure function of which fieldmap categories appear in the
session's types (the specification-side statement of the invariant). -/
def inferMethodOfTypes (types : List String) : Option String :=
  if types.contains "epi" then some "TOPUP"
  else if fmap_types.any types.contains then some "FIELDMAP"
  else none

theorem inferDcTopup_ok_method (ijkToXyz : String → String) (d : BidsData)
    (r : DcFields) (h : inferDcTopup ijkToXyz d = Except.ok r) :
    r.dcmethod = some "TOPUP" := by
  unfold inferDcTopup at h
  cases hpos : d.posEffEchoSpacing with
  | nil => rw [hpos] at h; exact absurd h (by simp)
  | cons es rest =>
    rw [hpos] at h
    cases hpe : d.funcPEDirs with
    | nil => rw [hpe] at h; exact absurd h (by simp)
    | cons pe rest2 =>
      rw [hpe] at h
      simp only [Except.ok.injEq] at h
      rw [← h]

theorem inferDcFieldmap_ok_method (d : BidsData) (r : DcFields)
    (h : inferDcFieldmap d = Except.ok r) : r.dcmethod = some "FIELDMAP" := by
  unfold inferDcFieldmap at h
  cases hm : inferDcFieldmapMag d with
  | error e => rw [hm] at h; exact absurd h (by simp)
  | ok mag =>
    rw [hm] at h
    cases hp : inferDcFieldmapPhase d with
    | error e => rw [hp] at h; exact absurd h (by simp)
    | ok ph =>
      rw [hp] at h
      simp only [Except.ok.injEq] at h
      rw [← h]

/-- C3: distortion-correction inference.  (1) On any successful construction
the inferred method equals the pure function of the fieldmap categories in
the session's types — TOPUP when a spin-echo pair is present, taking
precedence over gradient fieldmaps; FIELDMAP when a gradient-fieldmap
category is present without spin echoes; unset otherwise.  (2) In the
FIELDMAP branch, a magnitude1/magnitude2 pair with a phasediff image
succeeds with the echo-time difference in milliseconds; a single combined
magnitude image or a split phase1/phase2 pair is a not-supported error; a
missing magnitude or phase image is a domain error.  (3) Without any
fieldmap category every field is the unset sentinel.  (4) The method is
unchanged by any change that preserves the fieldmap-category memberships of
the types list. -/
theorem c3_dc_inference (ijkToXyz : String → String) (d : BidsData) :
    (∀ r, inferDc ijkToXyz d = Except.ok r → r.dcmethod = inferMethodOfTypes d.types)
    ∧ (d.types.contains "epi" = false → fmap_types.any d.types.contains = true →
        (((d.fmapEntries.map Prod.fst).contains "magnitude1"
            && (d.fmapEntries.map Prod.fst).contains "magnitude2") = true →
          (d.fmapEntries.map Prod.fst).contains "phasediff" = true →
          inferDc ijkToXyz d = Except.ok
            { dcmethod := some "FIELDMAP", echospacing := none, seunwarpdir := none,
              fmapmag := d.fmapEntries.lookup "magnitude1",
              fmapphase := d.fmapEntries.lookup "phasediff",
              fmapgeneralelectric := none,
              echodiff := some ((d.mag2EchoTime - d.mag1EchoTime) * 1000),
              gdcoeffs := none })
        ∧ (((d.fmapEntries.map Prod.fst).contains "magnitude1"
              && (d.fmapEntries.map Prod.fst).contains "magnitude2") = false →
            (d.fmapEntries.map Prod.fst).contains "magnitude" = true →
            inferDc ijkToXyz d = Except.error DcError.notImplemented)
        ∧ (((d.fmapEntries.map Prod.fst).contains "magnitude1"
              && (d.fmapEntries.map Prod.fst).contains "magnitude2") = false →
            (d.fmapEntries.map Prod.fst).contains "magnitude" = false →
            inferDc ijkToXyz d = Except.error DcError.noMagnitude)
        ∧ (((d.fmapEntries.map Prod.fst).contains "magnitude1"
              && (d.fmapEntries.map Prod.fst).contains "magnitude2") = true →
            (d.fmapEntries.map Prod.fst).contains "phasediff" = false →
            ((d.fmapEntries.map Prod.fst).contains "phase1"
              && (d.fmapEntries.map Prod.fst).contains "phase2") = true →
            inferDc ijkToXyz d = Except.error DcError.notImplemented)
        ∧ (((d.fmapEntries.map Prod.fst).contains "magnitude1"
              && (d.fmapEntries.map Prod.fst).contains "magnitude2") = true →
            (d.fmapEntries.map Prod.fst).contains "phasediff" = false →
            ((d.fmapEntries.map Prod.fst).contains "phase1"
              && (d.fmapEntries.map Prod.fst).contains "phase2") = false →
            inferDc ijkToXyz d = Except.error DcError.noPhase))
    ∧ (d.types.contains "epi" = false → fmap_types.any d.types.contains = false →
        inferDc ijkToXyz d = Except.ok dcUnset)
    ∧ (∀ types' : List String, types'.contains "epi" = d.types.contains "epi" →
        (∀ t, t ∈ fmap_types → types'.contains t = d.types.contains t) →
        inferMethodOfTypes types' = inferMethodOfTypes d.types) := by
  refine ⟨?_, ?_, ?_, ?_⟩
  · intro r h
    unfold inferDc at h
    unfold inferMethodOfTypes
    by_cases he : d.types.contains "epi" = true
    · rw [he] at h
      simp only [if_true] at h
      rw [he]
      simp only [if_true]
      exact inferDcTopup_ok_method ijkToXyz d r h
    · have he' : d.types.contains "epi" = false := by
        revert he; cases d.types.contains "epi" <;> simp
      rw [he'] at h ⊢
      simp only [Bool.false_eq_true, if_false] at h ⊢
      by_cases ha : fmap_types.any d.types.contains = true
      · rw [ha] at h ⊢
        simp only [if_true] at h ⊢
        exact inferDcFieldmap_ok_method d r h
      · have ha' : fmap_types.any d.types.contains = false := by
          revert ha; cases fmap_types.any d.types.contains <;> simp
        rw [ha'] at h ⊢
        simp only [Bool.false_eq_true, if_false] at h ⊢
        simp only [Except.ok.injEq] at h
        rw [← h]
        rfl
  · intro he ha
    have hDc : inferDc ijkToXyz d = inferDcFieldmap d := by
      unfold inferDc
      rw [he, ha]
      simp
    refine ⟨?_, ?_, ?_, ?_, ?_⟩
    · intro hmag hph
      rw [hDc]
      unfold inferDcFieldmap inferDcFieldmapMag inferDcFieldmapPhase
      simp only [hmag, hph, if_true]
    · intro hmag hm
      rw [hDc]
      unfold inferDcFieldmap inferDcFieldmapMag
      simp only [hmag, hm, Bool.false_eq_true, if_false, if_true]
    · intro hmag hm
      rw [hDc]
      unfold inferDcFieldmap inferDcFieldmapMag
      simp only [hmag, hm, Bool.false_eq_true, if_false]
    · intro hmag hph hp12
      rw [hDc]
      unfold inferDcFieldmap inferDcFieldmapMag inferDcFieldmapPhase
      simp only [hmag, hph, hp12, Bool.false_eq_true, if_false, if_true]
    · intro hmag hph hp12
      rw [hDc]
      unfold inferDcFieldmap inferDcFieldmapMag inferDcFieldmapPhase
      simp only [hmag, hph, hp12, Bool.false_eq_true, if_false, if_true]
  · intro he ha
    unfold inferDc
    rw [he, ha]
    simp
  · intro types' hepi hfm
    have h1 := hfm "magnitude" (by simp [fmap_types])
    have h2 := hfm "magnitude1" (by simp [fmap_types])
    have h3 := hfm "magnitude2" (by simp [fmap_types])
    have h4 := hfm "phasediff" (by simp [fmap_types])
    have h5 := hfm "phase1" (by simp [fmap_types])
    have h6 := hfm "phase2" (by simp [fmap_types])
    have h7 := hfm "fieldmap" (by simp [fmap_types])
    unfold inferMethodOfTypes
    rw [hepi]
    have hany : fmap_types.any types'.contains = fmap_types.any d.types.contains := by
      simp only [fmap_types, List.any_cons, List.any_nil, h1, h2, h3, h4, h5, h6, h7]
    rw [hany]

/-- Example session with a spin-echo pair. -/
def dEpiEx : BidsData :=
  { types := ["T1w", "T2w", "epi", "bold"], fmapEntries := [],
    mag1EchoTime := 0, mag2EchoTime := 0,
    posEffEchoSpacing := [(1 : ℚ) / 2000], funcPEDirs := ["j"] }

/-- Example session with a gradient fieldmap (magnitude pair plus phasediff). -/
def dGradEx : BidsData :=
  { types := ["T1w", "T2w", "magnitude1", "magnitude2", "phasediff"],
    fmapEntries := [("magnitude1", "m1.nii.gz"), ("magnitude2", "m2.nii.gz"),
                    ("phasediff", "ph.nii.gz")],
    mag1EchoTime := 5 / 1000, mag2EchoTime := 7 / 1000,
    posEffEchoSpacing := [], funcPEDirs := [] }

/-- Example session with no fieldmap modality at all. -/
def dNoneEx : BidsData :=
  { types := ["T1w", "T2w", "bold"], fmapEntries := [],
    mag1EchoTime := 0, mag2EchoTime := 0, posEffEchoSpacing := [], funcPEDirs := [] }

/-- Witness for C3: instantiates the inference theorem on the three concrete
sessions above — TOPUP for the spin-echo session, the full FIELDMAP record
for the gradient-fieldmap session, and the unset sentinel without
fieldmaps. -/
theorem c3_dc_inference_witness :
    (({ dcmethod := some "TOPUP", echospacing := some ((1 : ℚ) / 2000),
        seunwarpdir := some "j", fmapmag := none, fmapphase := none,
        fmapgeneralelectric := none, echodiff := none, gdcoeffs := none } :
          DcFields).dcmethod = inferMethodOfTypes dEpiEx.types)
    ∧ inferDc (fun s => s) dGradEx = Except.ok
        { dcmethod := some "FIELDMAP", echospacing := none, seunwarpdir := none,
          fmapmag := dGradEx.fmapEntries.lookup "magnitude1",
          fmapphase := dGradEx.fmapEntries.lookup "phasediff",
          fmapgeneralelectric := none,
          echodiff := some ((dGradEx.mag2EchoTime - dGradEx.mag1EchoTime) * 1000),
          gdcoeffs := none }
    ∧ inferDc (fun s => s) dNoneEx = Except.ok dcUnset :=
  ⟨(c3_dc_inference (fun s => s) dEpiEx).1 _ rfl,
   (((c3_dc_inference (fun s => s) dGradEx).2.1 (by decide) (by decide)).1
      (by decide) (by decide)),
   ((c3_dc_inference (fun s => s) dNoneEx).2.2.1 (by decide) (by decide))⟩

/-! ### Configuration construction and the driver's session body
(pipelines.py lines 120-199 and run.py interface lines 448-557) -/

inductive PipelineError where
  | noT2w
  | dc (e : DcError)
  | config (msg : String)
  deriving DecidableEq, Repr

/-- Embeds the control flow of `ParameterSettings.__init__`: the hard
requirement that the session types include T2w (lines 134-142, raised
before anything else can proceed) followed by the distortion-correction
inference of lines 149-199. -/
def parameterSettingsInit (ijkToXyz : String → String) (d : BidsData) :
    Except PipelineError DcFields :=
  if d.types.contains "T2w" then
    match inferDc ijkToXyz d with
    | Except.error e => Except.error (PipelineError.dc e)
    | Except.ok f => Except.ok f
  else Except.error PipelineError.noT2w

/-- Embeds the stage-list assembly of run.py lines 497-521: the anatomical
group when T1w data is present, the functional group when bold data is
present and anatomical-only mode is off, the always-appended summary stage,
and the optional trailing stages. -/
def buildOrder (types : List String) (anatOnly cleaningJson fileMapperJson : Bool) :
    List String :=
  (if types.contains "T1w" then ["PreFreeSurfer", "FreeSurfer", "PostFreeSurfer"] else [])
    ++ (if types.contains "bold" && !anatOnly then
          ["FMRIVolume", "FMRISurface", "DCANBOLDProcessing"] else [])
    ++ ["ExecutiveSummary"]
    ++ (if cleaningJson then ["CustomClean"] else [])
    ++ (if fileMapperJson then ["FileMapper"] else [])

/-- Embeds the per-session body of `run.interface`: the Configuration is
constructed first (line 448); only on success is the stage list built
(lines 497-521) and sliced (lines 524-557).  A construction failure
propagates before any stage exists. -/
def interfaceSession (ijkToXyz : String → String) (d : BidsData)
    (anatOnly cleaningJson fileMapperJson : Bool) (stages : Option String) :
    Except PipelineError (List String) :=
  match parameterSettingsInit ijkToXyz d with
  | Except.error e => Except.error e
  | Except.ok _ =>
    match sliceStages (buildOrder d.types anatOnly cleaningJson fileMapperJson) stages with
    | Except.error msg => Except.error (PipelineError.config msg)
    | Except.ok o => Except.ok o

/-- C9: a session whose types lack the companion anatomical contrast (T2w)
makes Configuration construction fail with the hard error, and the driver's
session body therefore fails before producing any stage list — no Stage is
built. -/
theorem c9_missing_t2w_fails_before_stages (ijkToXyz : String → String)
    (d : BidsData) (anatOnly cleaningJson fileMapperJson : Bool)
    (stages : Option String) (h : d.types.contains "T2w" = false) :
    parameterSettingsInit ijkToXyz d = Except.error PipelineError.noT2w
      ∧ interfaceSession ijkToXyz d anatOnly cleaningJson fileMapperJson stages
          = Except.error PipelineError.noT2w := by
  have hps : parameterSettingsInit ijkToXyz d = Except.error PipelineError.noT2w := by
    unfold parameterSettingsInit
    rw [h]
    simp
  refine ⟨hps, ?_⟩
  unfold interfaceSession
  rw [hps]

/-- Example session carrying T1w and functional data but no T2w. -/
def dNoT2wEx : BidsData :=
  { types := ["T1w", "bold"], fmapEntries := [],
    mag1EchoTime := 0, mag2EchoTime := 0, posEffEchoSpacing := [], funcPEDirs := [] }

/-- Witness for C9 at the concrete T2w-less session. -/
theorem c9_missing_t2w_witness :
    parameterSettingsInit (fun s => s) dNoT2wEx = Except.error PipelineError.noT2w
      ∧ interfaceSession (fun s => s) dNoT2wEx false false false none
          = Except.error PipelineError.noT2w :=
  c9_missing_t2w_fails_before_stages (fun s => s) dNoT2wEx false false false none
    (by decide)

/-! ### Intended-fieldmap resolution
(pipelines.py, PreFreeSurfer._get_intended_sefmaps lines 780-805 and
FMRIVolume._get_intended_sefmaps lines 923-948)

Both methods run the same for/else loop per polarity: enumerate the
polarity's `fmap_metadata` list, break at the first entry whose joined
`IntendedFor` list contains the target substring (`'T1w'` for the
anatomical case, the relative path of the functional time series for the
functional case); when the loop completes without a break, warn if the last
loop index is nonzero and fall back to index 0.  The loop variable `idx` is
function-scoped and SHARED across the two directions: with an empty
positive list the else branch reads it before any assignment — a Python
NameError — while an empty negative list after a non-empty positive one
reads the value leaked from the positive loop, so the fallback branch is
reached there without raising.  The chosen indices finally subscript the
parallel `fmap` file lists, where an out-of-range index is a Python
IndexError. -/

structure SeFmapMeta where
  intendedFor : List String
  deriving DecidableEq, Repr

def joinSpace (l : List String) : String := String.intercalate " " l

def listStartsWith (needle hay : List Char) : Bool :=
  match needle, hay with
  | [], _ => true
  | _ :: _, [] => false
  | a :: ns, b :: hs => a == b && listStartsWith ns hs

def listContainsSub (needle hay : List Char) : Bool :=
  match hay with
  | [] => needle.isEmpty
  | b :: hs => listStartsWith needle (b :: hs) || listContainsSub needle hs

/-- Python's substring containment `needle in hay`. -/
def containsSub (hay needle : String) : Bool := listContainsSub needle.toList hay.toList

/-- The break condition of the loop: the target is a substring of the
space-joined `IntendedFor` list of the sidecar entry. -/
def intendedMatches (target : String) (e : SeFmapMeta) : Bool :=
  containsSub (joinSpace e.intendedFor) target

/-- Index at which the enumerate-and-break loop stops, mirroring the first
matching index. -/
def firstMatchIdx (p : SeFmapMeta → Bool) : List SeFmapMeta → Option Nat
  | [] => none
  | e :: rest => if p e then some 0 else (firstMatchIdx p rest).map (fun i => i + 1)

inductive PyError where
  | nameError
  | indexError
  deriving DecidableEq, Repr

/-- One polarity of `_get_intended_sefmaps` as entered with the loop
variable `idx` still unbound — the situation of the positive direction,
which runs first: returns the resolved index and whether the
implicit-association warning was printed.  On no match the else branch
reads the final loop index (length - 1): it warns only when that index is
nonzero and falls back to index 0; on an empty list the loop index is still
unbound and Python raises NameError.  `resolveDirection` below makes the
shared loop variable explicit; on a `none` entry value and on every
non-empty list the two agree. -/
def resolveIntended (target : String) (entries : List SeFmapMeta) :
    Except PyError (Nat × Bool) :=
  match firstMatchIdx (intendedMatches target) entries with
  | some i => Except.ok (i, false)
  | none =>
    match entries.length with
    | 0 => Except.error PyError.nameError
    | Nat.succ n => Except.ok (0, decide (n ≠ 0))

/-- One direction of the for/else loop with the function-scoped loop
variable made explicit: `idxIn` is the value of `idx` on entry (`none`
while still unbound).  On a break at the first matching entry, `idx`
becomes that index and no warning prints.  When the loop finishes without a
break over a non-empty list, `idx` is the last index (length - 1), the
warning prints iff it is nonzero, and index 0 is chosen.  When the list is
empty the loop body never runs, so the else branch reads `idx` unchanged:
still-unbound is a Python NameError, while a value leaked from an earlier
direction feeds the warning test and index 0 is still chosen.  Returns the
chosen index, the warning flag and the value of `idx` afterwards. -/
def resolveDirection (target : String) (entries : List SeFmapMeta)
    (idxIn : Option Nat) : Except PyError (Nat × Bool × Option Nat) :=
  match firstMatchIdx (intendedMatches target) entries with
  | some i => Except.ok (i, false, some i)
  | none =>
    match entries.length with
    | 0 =>
      match idxIn with
      | none => Except.error PyError.nameError
      | some j => Except.ok (0, decide (j ≠ 0), some j)
    | Nat.succ n => Except.ok (0, decide (n ≠ 0), some n)

/-- The full `_get_intended_sefmaps`: the positive direction runs with
`idx` unbound, the negative direction inherits the loop variable left
behind by the positive loop, and the two chosen indices finally subscript
the parallel positive/negative `fmap` file lists
(`get_bids('fmap', direction, idx)`), where an out-of-range index is a
Python IndexError.  Returns, per direction, the chosen file and whether
the warning printed (warnings on paths that later raise are side effects
the model does not report). -/
def getIntendedSefmaps (target : String) (posMeta negMeta : List SeFmapMeta)
    (posFiles negFiles : List String) :
    Except PyError ((String × Bool) × (String × Bool)) :=
  match resolveDirection target posMeta none with
  | Except.error e => Except.error e
  | Except.ok pres =>
    match resolveDirection target negMeta pres.2.2 with
    | Except.error e => Except.error e
    | Except.ok nres =>
      match posFiles.get? pres.1 with
      | none => Except.error PyError.indexError
      | some pf =>
        match negFiles.get? nres.1 with
        | none => Except.error PyError.indexError
        | some nf => Except.ok ((pf, pres.2.1), (nf, nres.2.1))

theorem firstMatchIdx_of_unique (p : SeFmapMeta → Bool) (l : List SeFmapMeta)
    (i : Nat) (hi : i < l.length)
    (huniq : ∀ j (hj : j < l.length), (p (l.get ⟨j, hj⟩) = true ↔ j = i)) :
    firstMatchIdx p l = some i := by
  induction l generalizing i with
  | nil => exact absurd hi (by simp)
  | cons a t ih =>
    cases i with
    | zero =>
      have hpa : p a = true := (huniq 0 (Nat.succ_pos _)).2 rfl
      simp [firstMatchIdx, hpa]
    | succ j =>
      have hpa : p a = false := by
        cases hv : p a with
        | true => exact absurd ((huniq 0 (Nat.succ_pos _)).1 hv) (by omega)
        | false => rfl
      have hj : j < t.length := Nat.lt_of_succ_lt_succ hi
      have ht : firstMatchIdx p t = some j := by
        refine ih j hj ?_
        intro k hk
        have := huniq (k + 1) (Nat.succ_lt_succ hk)
        simpa [Nat.succ_inj] using this
      simp [firstMatchIdx, hpa, ht]

theorem firstMatchIdx_of_none (p : SeFmapMeta → Bool) (l : List SeFmapMeta)
    (h : ∀ e ∈ l, p e = false) : firstMatchIdx p l = none := by
  induction l with
  | nil => rfl
  | cons a t ih =>
    have hpa : p a = false := h a (List.mem_cons_self a t)
    have ht : firstMatchIdx p t = none := ih (fun e he => h e (List.mem_cons_of_mem a he))
    simp [firstMatchIdx, hpa, ht]

/-- C5 counterexample: a non-empty (single-entry) metadata list with no
entry referencing the target resolves to index 0 WITHOUT emitting the
implicit-association warning — the warning is guarded by `if idx != 0`, and
the final loop index over a one-element list is 0, so the warning is
silently dropped, contrary to the claim that it is always emitted. -/
theorem c5_single_entry_fallback_drops_warning :
    resolveIntended "T1w"
        [{ intendedFor := ["sub-1/func/sub-1_task-rest_bold.nii.gz"] }]
      = Except.ok (0, false) := by
  rfl

/-- C5 (amended): for each polarity independently, when exactly one entry's
intended-target list references the queried target, resolution returns that
entry's index (without warning); when no entry matches and the list is
non-empty, resolution returns index 0 and emits the implicit-association
warning if and only if the list has at least two entries. -/
theorem c5_resolution_unique_and_fallback (target : String)
    (entries : List SeFmapMeta) :
    (∀ i (hi : i < entries.length),
      (∀ j (hj : j < entries.length),
        (intendedMatches target (entries.get ⟨j, hj⟩) = true ↔ j = i)) →
      resolveIntended target entries = Except.ok (i, false))
    ∧ ((∀ e ∈ entries, intendedMatches target e = false) → entries ≠ [] →
        resolveIntended target entries
          = Except.ok (0, decide (2 ≤ entries.length))) := by
  constructor
  · intro i hi huniq
    have h := firstMatchIdx_of_unique (intendedMatches target) entries i hi huniq
    unfold resolveIntended
    rw [h]
  · intro hall hne
    have h := firstMatchIdx_of_none (intendedMatches target) entries hall
    unfold resolveIntended
    rw [h]
    cases hl : entries.length with
    | zero => exact absurd (List.length_eq_zero.1 hl) hne
    | succ n =>
      show Except.ok (0, decide (n ≠ 0)) = Except.ok (0, decide (2 ≤ n + 1))
      exact congrArg (fun b => Except.ok ((0 : Nat), b)) (decide_eq_decide.mpr (by omega))

/-- Witness for C5 (amended): a two-entry list whose second entry is the
unique match resolves to index 1 with no warning; a two-entry list with no
match falls back to index 0 with the warning emitted. -/
theorem c5_resolution_witness :
    resolveIntended "T1w"
        [{ intendedFor := ["sub-1/func/sub-1_task-rest_bold.nii.gz"] },
         { intendedFor := ["sub-1/anat/sub-1_T1w.nii.gz"] }]
      = Except.ok (1, false)
    ∧ resolveIntended "T1w"
        [{ intendedFor := ["sub-1/func/sub-1_task-rest_bold.nii.gz"] },
         { intendedFor := ["sub-1/func/sub-1_task-nback_bold.nii.gz"] }]
      = Except.ok (0, decide (2 ≤ ([{ intendedFor := ["sub-1/func/sub-1_task-rest_bold.nii.gz"] },
          { intendedFor := ["sub-1/func/sub-1_task-nback_bold.nii.gz"] }] :
            List SeFmapMeta).length)) :=
  ⟨(c5_resolution_unique_and_fallback "T1w" _).1 1 (by decide) (by decide),
   (c5_resolution_unique_and_fallback "T1w" _).2 (by decide) (by decide)⟩

/-- C10 counterexample: the fall-back-to-index-0 branch IS reachable with
an empty metadata list.  The loop variable `idx` is shared across the two
directions, so after a non-empty positive loop the negative for/else runs
with `idx` bound to the leaked value: the first conjunct shows the empty
negative direction producing the fallback result (index 0, no NameError);
the second shows the whole resolution over an empty negative metadata list
returning a fallback pair without raising at all (the negative file list
still has an entry), refuting the claim that resolution raises instead of
returning a fallback pair. -/
theorem c10_leaked_index_reaches_fallback :
    resolveDirection "T1w" [] (some 0) = Except.ok (0, false, some 0)
      ∧ getIntendedSefmaps "T1w"
          [{ intendedFor := ["sub-1/func/sub-1_task-rest_bold.nii.gz"] }] []
          ["pos_spinecho.nii.gz"] ["neg_spinecho.nii.gz"]
        = Except.ok (("pos_spinecho.nii.gz", false), ("neg_spinecho.nii.gz", false)) := by
  refine ⟨rfl, rfl⟩

theorem resolveDirection_cons_ok (target : String) (e : SeFmapMeta)
    (rest : List SeFmapMeta) (idxIn : Option Nat) :
    ∃ pi pw pj, resolveDirection target (e :: rest) idxIn
      = Except.ok (pi, pw, some pj) := by
  unfold resolveDirection
  cases hfm : firstMatchIdx (intendedMatches target) (e :: rest) with
  | some i => exact ⟨i, false, i, rfl⟩
  | none => exact ⟨0, decide (rest.length ≠ 0), rest.length, rfl⟩

/-- C10 (amended): only an empty POSITIVE metadata list makes resolution
raise the NameError from the still-unbound loop index.  With a non-empty
positive list, an empty negative metadata list does not raise NameError:
the negative for/else reads the loop index leaked from the positive loop
and reaches the fall-back-to-index-0 branch; resolution then fails — with
IndexError, at the parallel file-list subscripting — exactly because the
negative file list is also empty. -/
theorem c10_shared_idx_resolution (target : String)
    (posMeta negMeta : List SeFmapMeta) (posFiles negFiles : List String) :
    (posMeta = [] →
      getIntendedSefmaps target posMeta negMeta posFiles negFiles
        = Except.error PyError.nameError)
    ∧ (∀ j : Nat, resolveDirection target [] (some j)
        = Except.ok (0, decide (j ≠ 0), some j))
    ∧ (posMeta ≠ [] → negMeta = [] → negFiles = [] →
        getIntendedSefmaps target posMeta negMeta posFiles negFiles
          = Except.error PyError.indexError) := by
  refine ⟨?_, fun j => rfl, ?_⟩
  · intro hpos
    subst hpos
    rfl
  · intro hpos hneg hnf
    subst hneg
    subst hnf
    cases posMeta with
    | nil => exact absurd rfl hpos
    | cons e rest =>
      obtain ⟨pi, pw, pj, hres⟩ := resolveDirection_cons_ok target e rest none
      unfold getIntendedSefmaps
      rw [hres]
      dsimp only
      have h2 : resolveDirection target [] (some pj)
          = Except.ok (0, decide (pj ≠ 0), some pj) := rfl
      rw [h2]
      dsimp only
      cases hg : posFiles.get? pi with
      | none => rfl
      | some pf => rfl

/-- Witness for C10 (amended): the empty-positive NameError, the leaked
loop index (value 1) taking the fallback branch with the spurious warning,
and the empty-negative IndexError after a non-empty positive list. -/
theorem c10_shared_idx_witness :
    getIntendedSefmaps "T1w" []
        [{ intendedFor := ["sub-1/anat/sub-1_T1w.nii.gz"] }]
        [] ["neg_spinecho.nii.gz"]
      = Except.error PyError.nameError
    ∧ resolveDirection "T1w" [] (some 1)
        = Except.ok (0, decide ((1 : Nat) ≠ 0), some 1)
    ∧ getIntendedSefmaps "T1w"
        [{ intendedFor := ["sub-1/func/sub-1_task-rest_bold.nii.gz"] }] []
        ["pos_spinecho.nii.gz"] []
      = Except.error PyError.indexError :=
  ⟨(c10_shared_idx_resolution "T1w" []
      [{ intendedFor := ["sub-1/anat/sub-1_T1w.nii.gz"] }]
      [] ["neg_spinecho.nii.gz"]).1 rfl,
   (c10_shared_idx_resolution "T1w" [] [] [] []).2.1 1,
   (c10_shared_idx_resolution "T1w"
      [{ intendedFor := ["sub-1/func/sub-1_task-rest_bold.nii.gz"] }] []
      ["pos_spinecho.nii.gz"] []).2.2 (by simp) rfl rfl⟩

/-! ### Environment resolution
(pipelines.py, ParameterSettings._params / _format / get_params, lines 241-267)

`_params` reflects over all non-underscore attributes — the class-level
defaults shadowed by any instance attributes; `_format` runs
`setattr(self, item, value.format(**os.environ))` over that snapshot, i.e.
writes the resolved string back as an INSTANCE attribute; `get_params`
formats and then returns the snapshot.  The model keeps the class
dictionary and the instance dictionary separate, with instance entries
shadowing class entries, exactly as Python attribute lookup does.  Values
are the string-valued parameters (the only ones `_format` touches).

`pyFormat` embeds the placeholder substitution of `str.format` for the
cases the source exercises: well-formed `\x7bNAME\x7d` fields and a total
environment (a missing key or an unbalanced brace would be a Python
KeyError / ValueError; no theorem below evaluates those cases). -/

def pyFormatGo (env : String → String) : List Char → Option (List Char) → List Char
  | [], none => []
  | [], some acc => '\x7b' :: acc.reverse
  | c :: rest, none =>
    if c = '\x7b' then pyFormatGo env rest (some [])
    else c :: pyFormatGo env rest none
  | c :: rest, some acc =>
    if c = '\x7d' then (env (String.mk acc.reverse)).toList ++ pyFormatGo env rest none
    else pyFormatGo env rest (some (c :: acc))

def pyFormat (env : String → String) (s : String) : String :=
  String.mk (pyFormatGo env s.toList none)

structure PS where
  classFields : List (String × String)
  instFields : List (String × String)
  deriving DecidableEq, Repr

/-- Python attribute lookup: instance dictionary first, then the class
dictionary. -/
def getattrPS (ps : PS) (k : String) : Option String :=
  match ps.instFields.lookup k with
  | some v => some v
  | none => ps.classFields.lookup k

/-- Python `setattr(self, item, value)`: writes an instance attribute,
never the class dictionary. -/
def setattrPS (ps : PS) (k v : String) : PS :=
  { ps with instFields := (k, v) :: ps.instFields }

def keysPS (ps : PS) : List String :=
  (ps.instFields.map Prod.fst ++ ps.classFields.map Prod.fst).dedup

/-- Embeds `_params`: the name/value snapshot of all attributes, instance
values shadowing class values. -/
def paramsPS (ps : PS) : List (String × String) :=
  (keysPS ps).filterMap (fun k => (getattrPS ps k).map (fun v => (k, v)))

/-- Embeds `_format`: for every item of the `_params` snapshot, setattr the
environment-formatted value. -/
def formatPS (env : String → String) (ps : PS) : PS :=
  (paramsPS ps).foldl (fun acc kv => setattrPS acc kv.1 (pyFormat env kv.2)) ps

/-- Embeds `get_params`: `self._format()` then `return self._params()`;
the mutated object is returned alongside, since the source mutates `self`
in place. -/
def get_params (env : String → String) (ps : PS) : PS × List (String × String) :=
  (formatPS env ps, paramsPS (formatPS env ps))

theorem lookup_isSome_iff_mem_keys (l : List (String × String)) (k : String) :
    (l.lookup k).isSome ↔ k ∈ l.map Prod.fst := by
  induction l with
  | nil => simp [List.lookup]
  | cons a t ih =>
    by_cases h : k = a.1
    · simp [List.lookup, h]
    · have hb : (k == a.1) = false := beq_eq_false_iff_ne.mpr h
      simp [List.lookup, hb, ih, h]

theorem lookup_filterMap_by_key (h : String → Option String) (ks : List String)
    (k : String) :
    ((ks.filterMap (fun x => (h x).map (fun v => (x, v)))).lookup k)
      = if k ∈ ks then h k else none := by
  induction ks with
  | nil => simp [List.lookup]
  | cons a t ih =>
    cases hv : h a with
    | none =>
      by_cases hk : k = a
      · subst hk
        simp [List.filterMap_cons, hv, ih]
      · simp [List.filterMap_cons, hv, ih, hk]
    | some va =>
      by_cases hk : k = a
      · subst hk
        simp [List.filterMap_cons, hv, List.lookup]
      · have hb : (k == a) = false := beq_eq_false_iff_ne.mpr hk
        simp [List.filterMap_cons, hv, List.lookup, hb, ih, hk]

theorem map_fst_filterMap_by_key (h : String → Option String) (ks : List String) :
    (ks.filterMap (fun x => (h x).map (fun v => (x, v)))).map Prod.fst
      = ks.filter (fun x => (h x).isSome) := by
  induction ks with
  | nil => rfl
  | cons a t ih =>
    cases hv : h a with
    | none => simp [List.filterMap_cons, hv, List.filter_cons, ih]
    | some va => simp [List.filterMap_cons, hv, List.filter_cons, ih]

theorem nodup_keys_paramsPS (ps : PS) : ((paramsPS ps).map Prod.fst).Nodup := by
  unfold paramsPS keysPS
  rw [map_fst_filterMap_by_key]
  exact List.Nodup.filter _ (List.nodup_dedup _)

theorem mem_keysPS_iff (ps : PS) (k : String) :
    k ∈ keysPS ps ↔ (getattrPS ps k).isSome := by
  unfold keysPS getattrPS
  rw [List.mem_dedup, List.mem_append]
  rw [← lookup_isSome_iff_mem_keys, ← lookup_isSome_iff_mem_keys]
  cases hv : ps.instFields.lookup k <;> simp [hv]

theorem lookup_paramsPS (ps : PS) (k : String) :
    (paramsPS ps).lookup k = getattrPS ps k := by
  unfold paramsPS
  rw [lookup_filterMap_by_key]
  by_cases hk : k ∈ keysPS ps
  · simp [hk]
  · have : ¬(getattrPS ps k).isSome := fun hs => hk ((mem_keysPS_iff ps k).2 hs)
    simp [hk]
    cases hv : getattrPS ps k with
    | none => rfl
    | some v => exact absurd (by simp [hv]) this

theorem getattr_setattr_self (ps : PS) (k v : String) :
    getattrPS (setattrPS ps k v) k = some v := by
  simp [getattrPS, setattrPS, List.lookup]

theorem getattr_setattr_ne (ps : PS) (k v k' : String) (h : k' ≠ k) :
    getattrPS (setattrPS ps k v) k' = getattrPS ps k' := by
  have hb : (k' == k) = false := beq_eq_false_iff_ne.mpr h
  simp [getattrPS, setattrPS, List.lookup, hb]

theorem getattr_foldl_setattr (env : String → String) (l : List (String × String))
    (ps : PS) (k : String) (hnd : (l.map Prod.fst).Nodup) :
    getattrPS (l.foldl (fun acc kv => setattrPS acc kv.1 (pyFormat env kv.2)) ps) k
      = (match l.lookup k with
         | some v => some (pyFormat env v)
         | none => getattrPS ps k) := by
  induction l generalizing ps with
  | nil => rfl
  | cons a t ih =>
    obtain ⟨ak, av⟩ := a
    simp only [List.map_cons, List.nodup_cons] at hnd
    rw [List.foldl_cons, ih _ hnd.2]
    by_cases hk : k = ak
    · have htl : t.lookup k = none := by
        cases hv : t.lookup k with
        | none => rfl
        | some v =>
          have hm : k ∈ t.map Prod.fst :=
            (lookup_isSome_iff_mem_keys t k).1 (by simp [hv])
          rw [hk] at hm
          exact absurd hm hnd.1
      rw [htl]
      have hbeq : (k == ak) = true := by simp [hk]
      simp only [List.lookup, hbeq]
      rw [hk]
      exact getattr_setattr_self ps ak (pyFormat env av)
    · have hb : (k == ak) = false := beq_eq_false_iff_ne.mpr hk
      rw [getattr_setattr_ne ps ak (pyFormat env av) k hk]
      simp only [List.lookup, hb]

theorem getattr_formatPS (env : String → String) (ps : PS) (k : String) :
    getattrPS (formatPS env ps) k = (getattrPS ps k).map (pyFormat env) := by
  unfold formatPS
  rw [getattr_foldl_setattr env _ ps k (nodup_keys_paramsPS ps), lookup_paramsPS]
  cases hv : getattrPS ps k <;> simp

theorem classFields_formatPS (env : String → String) (ps : PS) :
    (formatPS env ps).classFields = ps.classFields := by
  unfold formatPS
  generalize paramsPS ps = l
  induction l generalizing ps with
  | nil => rfl
  | cons a t ih => rw [List.foldl_cons]; exact ih _

theorem pyFormatGo_fixpoint (env : String → String) (cs : List Char)
    (h : '\x7b' ∉ cs) : pyFormatGo env cs none = cs := by
  induction cs with
  | nil => rfl
  | cons c rest ih =>
    have hc : ¬(c = '\x7b') := by
      intro hc
      exact h (by rw [hc]; exact List.mem_cons_self _ _)
    have hrest : '\x7b' ∉ rest := fun hm => h (List.mem_cons_of_mem _ hm)
    simp [pyFormatGo, hc, ih hrest]

theorem pyFormat_fixpoint (env : String → String) (s : String)
    (h : '\x7b' ∉ s.toList) : pyFormat env s = s := by
  unfold pyFormat
  rw [pyFormatGo_fixpoint env _ h]
  cases s with
  | mk data => rfl

/-- C6 (amended): each call of `get_params` formats every field against the
environment current at that call, and the shared class-level defaults are
never mutated; but `_format` stores each resolved value back as an instance
attribute, so a field whose value is already fully resolved (no placeholder
brace left) is returned unchanged by the read — it no longer reacts to the
environment. -/
theorem c6_get_params_formats_and_caches (env : String → String) (ps : PS) :
    ((get_params env ps).1.classFields = ps.classFields)
    ∧ (∀ k, (get_params env ps).2.lookup k = (getattrPS ps k).map (pyFormat env))
    ∧ (∀ k v, getattrPS ps k = some v → '\x7b' ∉ v.toList →
        (get_params env ps).2.lookup k = some v) := by
  refine ⟨classFields_formatPS env ps, ?_, ?_⟩
  · intro k
    show (paramsPS (formatPS env ps)).lookup k = _
    rw [lookup_paramsPS, getattr_formatPS]
  · intro k v hv hfree
    show (paramsPS (formatPS env ps)).lookup k = _
    rw [lookup_paramsPS, getattr_formatPS, hv]
    simp [pyFormat_fixpoint env v hfree]

/-- The session Configuration of the two-read scenario: one templated
class-level default and an empty instance dictionary. -/
def psEx : PS :=
  { classFields := [("t1template", "{HCPPIPEDIR_Templates}/INFANT_MNI_T1_1mm.nii.gz")],
    instFields := [] }

def envA : String → String :=
  fun v => if v = "HCPPIPEDIR_Templates" then "/opt/a/templates" else ""

def envB : String → String :=
  fun v => if v = "HCPPIPEDIR_Templates" then "/opt/b/templates" else ""

/-- C6 counterexample: reading the parameters once under an environment
mapping the template root to `/opt/a/templates` and then again after the
variable has changed to `/opt/b/templates` returns the FIRST resolution
both times — the claim that the environment change is reflected in the
second read is false, because `_format` overwrote the placeholder with the
resolved string at the first read. -/
theorem c6_second_read_ignores_env_change :
    (get_params envA psEx).2.lookup "t1template"
        = some "/opt/a/templates/INFANT_MNI_T1_1mm.nii.gz"
      ∧ (get_params envB (get_params envA psEx).1).2.lookup "t1template"
          = some "/opt/a/templates/INFANT_MNI_T1_1mm.nii.gz"
      ∧ pyFormat envB "{HCPPIPEDIR_Templates}/INFANT_MNI_T1_1mm.nii.gz"
          = "/opt/b/templates/INFANT_MNI_T1_1mm.nii.gz"
      ∧ ("/opt/a/templates/INFANT_MNI_T1_1mm.nii.gz" : String)
          ≠ "/opt/b/templates/INFANT_MNI_T1_1mm.nii.gz" := by
  refine ⟨rfl, rfl, rfl, by decide⟩

/-- Witness for C6 (amended): after the first read under `envA`, the
resolved value carries no brace, so the cached-read conjunct applies at the
second read under `envB` and returns the `envA` resolution. -/
theorem c6_get_params_witness :
    (get_params envB (get_params envA psEx).1).2.lookup "t1template"
      = some "/opt/a/templates/INFANT_MNI_T1_1mm.nii.gz" :=
  (c6_get_params_formats_and_caches envB (get_params envA psEx).1).2.2
    "t1template" "/opt/a/templates/INFANT_MNI_T1_1mm.nii.gz" rfl (by decide)

/-! ### Setter operations (pipelines.py, ParameterSettings setters)

The claim cites `set_atropos_mask_method` (line 288, an unconditional
assignment), `set_bandstop_filter` (lines 291-295, three unconditional
assignments) and `set_aseg` (lines 376-384, guarded, resetting to the
hard default on a falsy value).  The guarded setters `set_dcmethod` and
`set_t1_brain_mask` (lines 332-334 and 369-373) are embedded as well for
the amended statement.  Values are optional strings: `none` is Python
`None`, `some ""` the empty string; `pyTruthy` is Python truthiness. -/

def pyTruthy (v : Option String) : Bool :=
  match v with
  | none => false
  | some s => !(s == "")

structure SetterCfg where
  atropos_mask_method : Option String
  motion_filter_type : Option String
  band_stop_min : Option ℚ
  band_stop_max : Option ℚ
  aseg : Option String
  dcmethod : Option String
  t1_brain_mask : Option String
  deriving DecidableEq, Repr

/-- Field values after `__init__` and the class defaults. -/
def setterDefaults : SetterCfg :=
  { atropos_mask_method := some "REFINE", motion_filter_type := some "notch",
    band_stop_min := none, band_stop_max := none, aseg := some "DEFAULT",
    dcmethod := none, t1_brain_mask := none }

/-- Embeds `set_atropos_mask_method`: `self.atropos_mask_method = value`,
with no guard. -/
def set_atropos_mask_method (c : SetterCfg) (value : Option String) : SetterCfg :=
  { c with atropos_mask_method := value }

/-- Embeds `set_bandstop_filter`: assigns the filter type and both bounds
unconditionally. -/
def set_bandstop_filter (c : SetterCfg) (lower upper : Option ℚ)
    (filter_type : Option String) : SetterCfg :=
  { c with motion_filter_type := filter_type, band_stop_min := lower,
           band_stop_max := upper }

/-- Embeds `set_aseg`: a truthy value is stored; any falsy value RESETS the
field to the hard default "DEFAULT" (not to the prior value). -/
def set_aseg (c : SetterCfg) (value : Option String) : SetterCfg :=
  if pyTruthy value then { c with aseg := value }
  else { c with aseg := some "DEFAULT" }

/-- Embeds `set_dcmethod`: `if value: self.dcmethod = value`. -/
def set_dcmethod (c : SetterCfg) (value : Option String) : SetterCfg :=
  if pyTruthy value then { c with dcmethod := value } else c

/-- Embeds `set_t1_brain_mask`: `if value: self.t1_brain_mask = value`. -/
def set_t1_brain_mask (c : SetterCfg) (value : Option String) : SetterCfg :=
  if pyTruthy value then { c with t1_brain_mask := value } else c

/-- C7 counterexample: `set_atropos_mask_method` called with the empty
string on the freshly constructed configuration overwrites the prior
default REFINE with the empty value — the setter is NOT the identity on
empty input, refuting the universally quantified claim. -/
theorem c7_setter_empty_value_not_identity :
    (set_atropos_mask_method setterDefaults (some "")).atropos_mask_method = some ""
      ∧ setterDefaults.atropos_mask_method = some "REFINE"
      ∧ set_atropos_mask_method setterDefaults (some "") ≠ setterDefaults := by
  refine ⟨rfl, rfl, by decide⟩

/-- C7 (amended): every setter is idempotent, but identity-on-empty only
holds for the guarded setters (`set_dcmethod`, `set_t1_brain_mask`):
`set_atropos_mask_method` and `set_bandstop_filter` overwrite their fields
unconditionally, and `set_aseg` on a falsy value resets the field to the
hard default "DEFAULT" instead of preserving the prior value. -/
theorem c7_setters_idempotent_and_guards (c : SetterCfg) (v : Option String)
    (lo hi : Option ℚ) (ft : Option String) :
    (set_atropos_mask_method (set_atropos_mask_method c v) v
        = set_atropos_mask_method c v)
    ∧ (set_bandstop_filter (set_bandstop_filter c lo hi ft) lo hi ft
        = set_bandstop_filter c lo hi ft)
    ∧ (set_aseg (set_aseg c v) v = set_aseg c v)
    ∧ (set_dcmethod (set_dcmethod c v) v = set_dcmethod c v)
    ∧ (set_t1_brain_mask (set_t1_brain_mask c v) v = set_t1_brain_mask c v)
    ∧ (pyTruthy v = false →
        set_dcmethod c v = c
        ∧ set_t1_brain_mask c v = c
        ∧ set_aseg c v = { c with aseg := some "DEFAULT" }
        ∧ set_atropos_mask_method c v = { c with atropos_mask_method := v }) := by
  by_cases h : pyTruthy v = true
  · refine ⟨rfl, rfl, ?_, ?_, ?_, ?_⟩
    · simp [set_aseg, h]
    · simp [set_dcmethod, h]
    · simp [set_t1_brain_mask, h]
    · intro hf
      rw [h] at hf
      exact absurd hf (by simp)
  · have hf : pyTruthy v = false := by
      revert h; cases pyTruthy v <;> simp
    refine ⟨rfl, rfl, ?_, ?_, ?_, ?_⟩
    · simp [set_aseg, hf]
    · simp [set_dcmethod, hf]
    · simp [set_t1_brain_mask, hf]
    · intro _
      exact ⟨by simp [set_dcmethod, hf], by simp [set_t1_brain_mask, hf],
             by simp [set_aseg, hf], rfl⟩

/-- Witness for C7 (amended): with value `None`, the guarded `set_dcmethod`
preserves the configuration, and `set_aseg` is idempotent at a concrete
path. -/
theorem c7_setters_witness :
    set_dcmethod setterDefaults none = setterDefaults
      ∧ set_aseg (set_aseg setterDefaults (some "/data/aseg.nii.gz"))
          (some "/data/aseg.nii.gz")
        = set_aseg setterDefaults (some "/data/aseg.nii.gz") :=
  ⟨((c7_setters_idempotent_and_guards setterDefaults none none none none).2.2.2.2.2
      rfl).1,
   (c7_setters_idempotent_and_guards setterDefaults (some "/data/aseg.nii.gz")
      none none none).2.2.1⟩

end InfantPipeline

